import Mathlib

/-!
# Verification development for the API-server bootstrap and the test service registry

Two source files are embedded:

* `pkg/registry/registrytest/service.go`: the in-memory `ServiceRegistry` test double.
  Its methods mutate the receiver, so every method is a function from the registry state
  and the arguments to a `Call`: what the method handed back together with the state it
  left behind.
* `cmd/apiserver/apiserver.go`: the `main` bootstrap sequence.  The collaborators it calls
  (file system, etcd client, cloud providers, regexp compiler, token file reader) are
  parameters of the model; `main` is a function from the flag values and those
  collaborators to the list of construction steps it performed and the way it ended.

Go pointers are modelled by `Option`: `none` is the nil pointer, `some v` a pointer to an
object whose current value is `v`.  Go `error` and interface values are modelled the same
way, `none` being nil.
-/

set_option linter.dupNamespace false

namespace Registrytest

/-! ## Data model of `service.go` -/

/-- A Go `error` value that is not nil, identified by its message. -/
abbrev GoError := String

/-- Modelled from the spec: `api.Context` is declared in `pkg/api`, which is not part of the
embedded sources.  The spec describes it as carrying request-scoped identity/namespace
information.  No registry method reads it. -/
structure Context where
  Namespace : String
  deriving DecidableEq, Repr

/-- Modelled from the spec: `labels.Selector` is declared in `pkg/labels`; the spec describes
it as a conjunctive predicate over labels or fields.  No registry method reads it. -/
structure Selector where
  Requirements : List (String × String)
  deriving DecidableEq, Repr

/-- Modelled from the spec: `api.Service` is declared in `pkg/api`.  The spec describes a
resource object as an identifier unique within its kind, a resource version and a
specification payload.  The only field the registry reads is `ID`. -/
structure Service where
  ID : String
  ResourceVersion : Nat
  Spec : String
  deriving DecidableEq, Repr

/-- Modelled from the spec: `api.ServiceList` is declared in `pkg/api`: list metadata and the
`Items` slice, the only part the registry writes. -/
structure ServiceList where
  ResourceVersion : Nat
  Items : List Service
  deriving DecidableEq, Repr

/-- Modelled from the spec: `api.Endpoints` is declared in `pkg/api`: the endpoint set
attached to a service. -/
structure Endpoints where
  ID : String
  ResourceVersion : Nat
  Endpoints : List String
  deriving DecidableEq, Repr

/-- Modelled from the spec: `api.EndpointsList` is declared in `pkg/api`. -/
structure EndpointsList where
  ResourceVersion : Nat
  Items : List Endpoints
  deriving DecidableEq, Repr

/-- Modelled from the spec: `watch.Interface` is declared in `pkg/watch`; the spec describes a
watch event stream.  The registry never builds one, it only returns the nil interface. -/
structure WatchInterface where
  Events : List (String × Service)
  deriving DecidableEq, Repr

/-- The `ServiceRegistry` struct, field for field.  `Service` is a pointer and `Err` an
interface, so both may be nil. -/
structure ServiceRegistry where
  List : ServiceList
  Service : Option Service
  Err : Option GoError
  Endpoints : Endpoints
  EndpointsList : EndpointsList
  DeletedID : String
  GottenID : String
  UpdatedID : String
  deriving DecidableEq, Repr

/-- How a method call ended: it returned its results, or a nil pointer dereference made the
Go runtime panic. -/
inductive Outcome (α : Type) where
  | returned (results : α)
  | panicked
  deriving DecidableEq, Repr

/-- A finished method call: how it ended and the registry state it left behind. -/
structure Call (α : Type) where
  outcome : Outcome α
  state : ServiceRegistry
  deriving DecidableEq, Repr

/-- Function `NewServiceRegistry`: the zero value of the struct. -/
def NewServiceRegistry : ServiceRegistry :=
  { List := { ResourceVersion := 0, Items := [] }
    Service := none
    Err := none
    Endpoints := { ID := "", ResourceVersion := 0, Endpoints := [] }
    EndpointsList := { ResourceVersion := 0, Items := [] }
    DeletedID := ""
    GottenID := ""
    UpdatedID := "" }

/-! ## The ten methods -/

/-- Method `ListServices`: `return &r.List, r.Err`. -/
def ListServices (r : ServiceRegistry) (_ctx : Context) :
    Call (Option ServiceList × Option GoError) :=
  { outcome := .returned (some r.List, r.Err), state := r }

/-- Method `CreateService`: `r.Service = svc`, then `r.List.Items = append(r.List.Items, *svc)`,
then `return r.Err`.  The dereference `*svc` panics on a nil pointer, after the first
assignment has already happened. -/
def CreateService (r : ServiceRegistry) (_ctx : Context) (svc : Option Service) :
    Call (Option GoError) :=
  let r1 := { r with Service := svc }
  match svc with
  | none => { outcome := .panicked, state := r1 }
  | some s =>
    let r2 := { r1 with List := { r1.List with Items := r1.List.Items ++ [s] } }
    { outcome := .returned r2.Err, state := r2 }

/-- Method `GetService`: `r.GottenID = id`, then `return r.Service, r.Err`. -/
def GetService (r : ServiceRegistry) (_ctx : Context) (id : String) :
    Call (Option Service × Option GoError) :=
  let r1 := { r with GottenID := id }
  { outcome := .returned (r1.Service, r1.Err), state := r1 }

/-- Method `DeleteService`: `r.DeletedID = id`, then `return r.Err`. -/
def DeleteService (r : ServiceRegistry) (_ctx : Context) (id : String) :
    Call (Option GoError) :=
  let r1 := { r with DeletedID := id }
  { outcome := .returned r1.Err, state := r1 }

/-- Method `UpdateService`: `r.UpdatedID = svc.ID`, then `return r.Err`.  Reading `svc.ID`
panics on a nil pointer, before anything is written. -/
def UpdateService (r : ServiceRegistry) (_ctx : Context) (svc : Option Service) :
    Call (Option GoError) :=
  match svc with
  | none => { outcome := .panicked, state := r }
  | some s =>
    let r1 := { r with UpdatedID := s.ID }
    { outcome := .returned r1.Err, state := r1 }

/-- Method `WatchServices`: `return nil, r.Err`. -/
def WatchServices (r : ServiceRegistry) (_ctx : Context) (_label _field : Selector)
    (_resourceVersion : String) : Call (Option WatchInterface × Option GoError) :=
  { outcome := .returned (none, r.Err), state := r }

/-- Method `ListEndpoints`: `return &r.EndpointsList, r.Err`. -/
def ListEndpoints (r : ServiceRegistry) (_ctx : Context) :
    Call (Option EndpointsList × Option GoError) :=
  { outcome := .returned (some r.EndpointsList, r.Err), state := r }

/-- Method `GetEndpoints`: `r.GottenID = id`, then `return &r.Endpoints, r.Err`. -/
def GetEndpoints (r : ServiceRegistry) (_ctx : Context) (id : String) :
    Call (Option Endpoints × Option GoError) :=
  let r1 := { r with GottenID := id }
  { outcome := .returned (some r1.Endpoints, r1.Err), state := r1 }

/-- Method `UpdateEndpoints`: `r.Endpoints = *e`, then `return r.Err`.  The dereference `*e`
panics on a nil pointer, before the assignment. -/
def UpdateEndpoints (r : ServiceRegistry) (_ctx : Context) (e : Option Endpoints) :
    Call (Option GoError) :=
  match e with
  | none => { outcome := .panicked, state := r }
  | some v =>
    let r1 := { r with Endpoints := v }
    { outcome := .returned r1.Err, state := r1 }

/-- Method `WatchEndpoints`: `return nil, r.Err`. -/
def WatchEndpoints (r : ServiceRegistry) (_ctx : Context) (_label _field : Selector)
    (_resourceVersion : String) : Call (Option WatchInterface × Option GoError) :=
  { outcome := .returned (none, r.Err), state := r }

/-! ## Sample inputs -/

/-- A sample service. -/
def sampleService : Service := { ID := "foo", ResourceVersion := 1, Spec := "port 80" }

/-- A second sample service. -/
def otherService : Service := { ID := "bar", ResourceVersion := 2, Spec := "port 443" }

/-- A sample endpoint set. -/
def sampleEndpoints : Endpoints :=
  { ID := "foo", ResourceVersion := 1, Endpoints := ["10.0.0.1:80"] }

/-- A sample request context. -/
def sampleContext : Context := { Namespace := "default" }

/-- The empty selector. -/
def everything : Selector := { Requirements := [] }

/-- A fresh registry with the error `boom` injected. -/
def failingRegistry : ServiceRegistry := { NewServiceRegistry with Err := some "boom" }

/-- A value/error pair obeys the either-or discipline when exactly one of the two is
non-nil. -/
def exactlyOne {α : Type} (value : Option α) (err : Option GoError) : Bool :=
  (value.isSome && err.isNone) || (value.isNone && err.isSome)

end Registrytest

namespace Apiserver

open Registrytest (GoError)

/-! ## Data model of `apiserver.go` -/

/-- The package-level flag variables of `apiserver.go`, after `flag.Parse`.  `address` is kept
in its printed form, durations are in nanoseconds, and the `uint` flags `port` and
`minionPort` hold their unsigned value. -/
structure Flags where
  port : Nat
  address : String
  apiPrefix : String
  storageVersion : String
  cloudProvider : String
  cloudConfigFile : String
  minionRegexp : String
  minionPort : Nat
  healthCheckMinions : Bool
  minionCacheTTL : Nat
  tokenAuthFile : String
  etcdServerList : List String
  etcdConfigFile : String
  machineList : List String
  corsAllowedOriginList : List String
  allowPrivileged : Bool
  nodeMilliCPU : Int
  nodeMemory : Int
  deriving DecidableEq, Repr

/-- An open `*os.File`, named by its path. -/
structure File where
  path : String
  deriving DecidableEq, Repr

/-- A `cloudprovider.Interface` value that is not nil. -/
structure Cloud where
  provider : String
  deriving DecidableEq, Repr

/-- The `client.Config` literal built in `main`. -/
structure ClientConfig where
  Host : String
  Version : String
  deriving DecidableEq, Repr

/-- A `*client.Client`. -/
structure Client where
  config : ClientConfig
  deriving DecidableEq, Repr

/-- A `tools.EtcdGetSet` value that is not nil: the etcd client, from a config file or from a
server list. -/
inductive EtcdClient where
  | fromFile (path : String)
  | fromServers (servers : List String)
  deriving DecidableEq, Repr

/-- A `tools.EtcdHelper`. -/
structure EtcdHelper where
  client : Option EtcdClient
  version : String
  deriving DecidableEq, Repr

/-- A compiled `*regexp.Regexp`, named by its source text. -/
structure Regexp where
  source : String
  deriving DecidableEq, Repr

/-- The token authenticator `tokenfile.New` loads from a file. -/
structure TokenAuthenticator where
  path : String
  deriving DecidableEq, Repr

/-- The `master.Config` literal built in `main`. -/
structure MasterConfig where
  Client : Client
  Cloud : Option Cloud
  EtcdHelper : EtcdHelper
  HealthCheckMinions : Bool
  Minions : List String
  MinionCacheTTL : Nat
  MinionRegexp : String
  MinionPort : Nat
  NodeCPU : Int
  NodeMemory : Int
  deriving DecidableEq, Repr

/-- What has been installed on the `http.ServeMux`, in installation order. -/
inductive Route where
  | rest (apiVersion : String) (pathPrefix : String)
  | support
  | ui
  deriving DecidableEq, Repr

/-- The `http.Handler` values `main` builds: the mux and the three wrappers around it. -/
inductive Handler where
  | mux (m : MasterConfig) (routes : List Route)
  | cors (inner : Handler) (allowedOrigins : List Regexp) (allowCredentials : String)
  | requestAuthenticator (auth : TokenAuthenticator) (inner : Handler)
  | recoverPanics (inner : Handler)
  deriving DecidableEq, Repr

/-- The `http.Server` literal built in `main`. -/
structure Server where
  Addr : String
  Handler : Handler
  ReadTimeout : Nat
  WriteTimeout : Nat
  MaxHeaderBytes : Nat
  deriving DecidableEq, Repr

/-- The reasons for which `main` and `initCloudProvider` call `glog.Fatalf`. -/
inductive Fatal where
  | storageSource
  | cloudConfigOpen (path : String) (err : GoError)
  | cloudProviderInit (name : String) (err : GoError)
  | unknownCloudProvider (name : String)
  | invalidServerAddress (err : GoError)
  | misconfiguredEtcd (err : GoError)
  | invalidCORS (origins : List String) (err : GoError)
  | tokenAuthFile (path : String) (err : GoError)
  deriving DecidableEq, Repr

/-- The ways a run of `main` ends: the version was printed and the process exited, a
`glog.Fatalf` ended it, or control reached `s.ListenAndServe()` (whose return, whenever it
happens, is again fatal). -/
inductive Termination where
  | exited
  | fatal (cause : Fatal)
  | listening (s : Server)
  deriving DecidableEq, Repr

/-- The observable steps of a run, in the order `main` performs them.  `checkStorageSource`
is the evaluation of the condition on `etcdConfigFile` and `etcdServerList`; every other
step is a call that `main`, `verifyMinionFlags`, `initCloudProvider` or `newEtcd` makes. -/
inductive Event where
  | logInfo (msg : String)
  | checkStorageSource
  | capabilitiesInit (allowPrivileged : Bool)
  | openCloudConfig (path : String)
  | getCloudProvider (name : String)
  | newClient (host : String)
  | etcdClientFromFile (path : String)
  | etcdClientFromServers (servers : List String)
  | newEtcdHelper (version : String)
  | newMaster
  | newServeMux
  | install (r : Route)
  | compileRegexps (patterns : List String)
  | wrapCORS
  | loadTokenFile (path : String)
  | wrapAuthenticator
  | wrapRecoverPanics
  | listenAndServe (addr : String)
  deriving DecidableEq, Repr

/-- The steps that construct a cloud provider, storage, a handler or the listener; the log
lines, the storage-source check and the capabilities switch are the only steps that do not. -/
def Event.isConstruction : Event → Bool
  | .logInfo _ => false
  | .checkStorageSource => false
  | .capabilitiesInit _ => false
  | _ => true

/-- The two steps of the cross-origin stage: compiling the patterns and wrapping the
handler. -/
def Event.isCORS : Event → Bool
  | .compileRegexps _ => true
  | .wrapCORS => true
  | _ => false

/-- The collaborators `main` calls that live outside `apiserver.go`.  A call that returns
`(value, err)` in Go is an `Except`: the code never uses the value when `err` is non-nil. -/
structure World where
  versionRequested : Bool
  osOpen : String → Except GoError File
  getCloudProvider : String → Option File → Except GoError (Option Cloud)
  joinHostPort : String → String → String
  clientNew : ClientConfig → Except GoError Client
  etcdNewClientFromFile : String → Except GoError EtcdClient
  etcdNewClient : List String → EtcdClient
  newEtcdHelper : Option EtcdClient → String → Except GoError EtcdHelper
  regexpCompile : String → Except GoError Regexp
  tokenfileNew : String → Except GoError TokenAuthenticator

/-- A run prefix: the steps performed so far and either the value computed or the way the
process ended. -/
structure Run (α : Type) where
  trace : List Event
  result : Except Termination α

/-- Sequencing of runs: the second part runs only if the first did not end the process. -/
def Run.bind {α β : Type} (x : Run α) (k : α → Run β) : Run β :=
  match x.result with
  | .error t => { trace := x.trace, result := .error t }
  | .ok a => { trace := x.trace ++ (k a).trace, result := (k a).result }

instance : Monad Run where
  pure a := { trace := [], result := .ok a }
  bind := Run.bind

/-- Record one step. -/
def emit (e : Event) : Run Unit := { trace := [e], result := .ok () }

/-- End the process. -/
def stop {α : Type} (t : Termination) : Run α := { trace := [], result := .error t }

/-- The call `glog.Fatalf`: log the cause and end the process. -/
def fatalf {α : Type} (cause : Fatal) : Run α := stop (.fatal cause)

/-- The outermost-to-innermost list of layers of a handler. -/
inductive Layer where
  | recovery
  | authentication
  | crossOrigin
  | routing
  deriving DecidableEq, Repr

/-- Flatten a handler into its layers, outermost first. -/
def Handler.layers : Handler → List Layer
  | .mux _ _ => [.routing]
  | .cors inner _ _ => .crossOrigin :: inner.layers
  | .requestAuthenticator _ inner => .authentication :: inner.layers
  | .recoverPanics inner => .recovery :: inner.layers

/-! ## The functions of `apiserver.go` -/

/-- Function `verifyMinionFlags`. -/
def verifyMinionFlags (f : Flags) : Run Unit := do
  if f.cloudProvider = "" ∨ f.minionRegexp = "" then
    if f.machineList.length = 0 then
      emit (.logInfo "No machines specified!")
    return
  if f.machineList.length ≠ 0 then
    emit (.logInfo "-machines is overwritten by -minion_regexp")

/-- Function `initCloudProvider`.  The deferred `config.Close()` has no step of its own. -/
def initCloudProvider (w : World) (name : String) (configFilePath : String) :
    Run (Option Cloud) := do
  if name = "" then
    emit (.logInfo "No cloud provider specified.")
    return none
  let mut config : Option File := none
  if configFilePath ≠ "" then
    emit (.openCloudConfig configFilePath)
    match w.osOpen configFilePath with
    | .error err => fatalf (.cloudConfigOpen configFilePath err)
    | .ok file => config := some file
  emit (.getCloudProvider name)
  match w.getCloudProvider name config with
  | .error err => fatalf (.cloudProviderInit name err)
  | .ok none => fatalf (.unknownCloudProvider name)
  | .ok (some cloud) => return some cloud

/-- Function `newEtcd`: it returns `(helper, err)` to its caller instead of ending the
process.  It reads the flag `storageVersion`, hence the parameter `f`. -/
def newEtcd (f : Flags) (w : World) (etcdConfigFile : String) (etcdServerList : List String) :
    Run (Except GoError EtcdHelper) := do
  let mut client : Option EtcdClient := none
  if etcdConfigFile ≠ "" then
    emit (.etcdClientFromFile etcdConfigFile)
    match w.etcdNewClientFromFile etcdConfigFile with
    | .error err => return .error err
    | .ok c => client := some c
  else
    emit (.etcdClientFromServers etcdServerList)
    client := some (w.etcdNewClient etcdServerList)
  emit (.newEtcdHelper f.storageVersion)
  return w.newEtcdHelper client f.storageVersion

/-- Modelled from the spec: `util.CompileRegexps` is defined in `pkg/util`, which is not part of
the embedded sources.  The spec says an origin pattern that fails to compile as a matcher is
an error and a valid list yields the compiled matchers: the patterns are compiled in order
and the first failure is returned. -/
def CompileRegexps (compile : String → Except GoError Regexp) :
    List String → Except GoError (List Regexp)
  | [] => .ok []
  | p :: ps =>
    match compile p with
    | .error err => .error err
    | .ok r =>
      match CompileRegexps compile ps with
      | .error err => .error err
      | .ok rs => .ok (r :: rs)

/-- The Go conversion `int(u)` of a `uint` value on a 64-bit platform: the same 64 bits read
as a signed number, so values from `2^63` on come out negative. -/
def intOfUint (u : Nat) : Int :=
  if u % 2 ^ 64 < 2 ^ 63 then ((u % 2 ^ 64 : Nat) : Int) else ((u % 2 ^ 64 : Nat) : Int) - 2 ^ 64

/-- The library call `strconv.Itoa`: the decimal text of an `int`. -/
def Itoa (i : Int) : String := toString i

/-- The expression `net.JoinHostPort(address.String(), strconv.Itoa(int(*port)))`, which
`main` writes twice: for the client host and for the server address. -/
def hostPort (f : Flags) (w : World) : String :=
  w.joinHostPort f.address (Itoa (intOfUint f.port))

/-- The `client.Config` literal of `main`. -/
def clientConfig (f : Flags) (w : World) : ClientConfig :=
  { Host := hostPort f w, Version := f.storageVersion }

/-- The `master.Config` literal of `main`.  Its `PodInfoGetter` is represented by the port it
is built with. -/
def masterConfig (f : Flags) (client : Client) (cloud : Option Cloud) (helper : EtcdHelper) :
    MasterConfig :=
  { Client := client
    Cloud := cloud
    EtcdHelper := helper
    HealthCheckMinions := f.healthCheckMinions
    Minions := f.machineList
    MinionCacheTTL := f.minionCacheTTL
    MinionRegexp := f.minionRegexp
    MinionPort := f.minionPort
    NodeCPU := f.nodeMilliCPU
    NodeMemory := f.nodeMemory }

/-- The four installations `main` performs on the new mux, in order: the two REST API groups
under the API path, the support endpoints and the UI. -/
def installedRoutes (f : Flags) : List Route :=
  [.rest "v1beta1" (f.apiPrefix ++ "/v1beta1"), .rest "v1beta2" (f.apiPrefix ++ "/v1beta2"),
    .support, .ui]

/-- The `http.Server` literal of `main`: five-minute read and write timeouts (in
nanoseconds) and a header limit of `1 << 20` bytes. -/
def httpServer (f : Flags) (w : World) (handler : Handler) : Server :=
  { Addr := hostPort f w
    Handler := handler
    ReadTimeout := 5 * 60 * 1000000000
    WriteTimeout := 5 * 60 * 1000000000
    MaxHeaderBytes := 1 <<< 20 }

/-- Function `main`, from `verflag.PrintAndExitIfRequested()` on (flag parsing and log set-up
come before it and decide nothing).  The Go variable `handler` is assigned three times;
each assignment is a fresh name here (`mux`, `corsHandler`, `authHandler`, `handler`). -/
def main (f : Flags) (w : World) : Run Unit := do
  (if w.versionRequested then stop .exited else pure ())
  verifyMinionFlags f
  emit .checkStorageSource
  (if (f.etcdConfigFile ≠ "" ∧ f.etcdServerList.length ≠ 0) ∨
      (f.etcdConfigFile = "" ∧ f.etcdServerList.length = 0) then
    fatalf .storageSource
  else pure ())
  emit (.capabilitiesInit f.allowPrivileged)
  let cloud ← initCloudProvider w f.cloudProvider f.cloudConfigFile
  emit (.newClient (clientConfig f w).Host)
  let client ← (match w.clientNew (clientConfig f w) with
    | .error err => fatalf (.invalidServerAddress err)
    | .ok c => pure c)
  let helperOrErr ← newEtcd f w f.etcdConfigFile f.etcdServerList
  let helper ← (match helperOrErr with
    | .error err => fatalf (.misconfiguredEtcd err)
    | .ok h => pure h)
  emit .newMaster
  emit .newServeMux
  emit (.install (.rest "v1beta1" (f.apiPrefix ++ "/v1beta1")))
  emit (.install (.rest "v1beta2" (f.apiPrefix ++ "/v1beta2")))
  emit (.install .support)
  emit (.install .ui)
  let mux : Handler := .mux (masterConfig f client cloud helper) (installedRoutes f)
  let corsHandler ←
    (if f.corsAllowedOriginList.length > 0 then
      (do
        emit (.compileRegexps f.corsAllowedOriginList)
        (match CompileRegexps w.regexpCompile f.corsAllowedOriginList with
          | .error err => fatalf (.invalidCORS f.corsAllowedOriginList err)
          | .ok allowedOriginRegexps => do
            emit .wrapCORS
            pure (Handler.cors mux allowedOriginRegexps "true")))
    else
      pure mux)
  let authHandler ←
    (if f.tokenAuthFile.utf8ByteSize ≠ 0 then
      (do
        emit (.loadTokenFile f.tokenAuthFile)
        (match w.tokenfileNew f.tokenAuthFile with
          | .error err => fatalf (.tokenAuthFile f.tokenAuthFile err)
          | .ok auth => do
            emit .wrapAuthenticator
            pure (Handler.requestAuthenticator auth corsHandler)))
    else
      pure corsHandler)
  emit .wrapRecoverPanics
  let handler : Handler := .recoverPanics authHandler
  let s : Server := httpServer f w handler
  emit (.listenAndServe s.Addr)
  stop (.listening s)

/-! ## Sample inputs -/

/-- The flag defaults of `apiserver.go` with `-etcd_servers=http://127.0.0.1:4001`. -/
def sampleFlags : Flags :=
  { port := 8080
    address := "127.0.0.1"
    apiPrefix := "/api"
    storageVersion := ""
    cloudProvider := ""
    cloudConfigFile := ""
    minionRegexp := ""
    minionPort := 10250
    healthCheckMinions := true
    minionCacheTTL := 30000000000
    tokenAuthFile := ""
    etcdServerList := ["http://127.0.0.1:4001"]
    etcdConfigFile := ""
    machineList := []
    corsAllowedOriginList := []
    allowPrivileged := false
    nodeMilliCPU := 1000
    nodeMemory := 3221225472 }

/-- Both storage sources set. -/
def bothSourcesFlags : Flags := { sampleFlags with etcdConfigFile := "/etc/etcd.conf" }

/-- No storage source set. -/
def noSourceFlags : Flags := { sampleFlags with etcdServerList := [] }

/-- A token file and one allowed origin. -/
def securedFlags : Flags :=
  { sampleFlags with tokenAuthFile := "/etc/tokens.csv", corsAllowedOriginList := ["example.com"] }

/-- An origin list whose second pattern does not compile. -/
def badOriginFlags : Flags := { sampleFlags with corsAllowedOriginList := ["example.com", "("] }

/-- A world in which every collaborator succeeds, except that the pattern `"("` does not
compile. -/
def sampleWorld : World :=
  { versionRequested := false
    osOpen := fun p => .ok { path := p }
    getCloudProvider := fun n _ => .ok (some { provider := n })
    joinHostPort := fun h p => h ++ ":" ++ p
    clientNew := fun c => .ok { config := c }
    etcdNewClientFromFile := fun p => .ok (.fromFile p)
    etcdNewClient := fun l => .fromServers l
    newEtcdHelper := fun c v => .ok { client := c, version := v }
    regexpCompile := fun s => if s = "(" then .error "missing closing )" else .ok { source := s }
    tokenfileNew := fun p => .ok { path := p } }

end Apiserver

/-! # Theorems about the service registry -/

namespace Registrytest

/-- C2, as stated, fails: the registry with the error `boom` injected does not return `boom`
from `CreateService` or `UpdateService` called with a nil service pointer, nor from
`UpdateEndpoints` called with a nil endpoints pointer; each call panics at the
dereference. -/
theorem nil_argument_panics :
    failingRegistry.Err = some "boom" ∧
      ((CreateService failingRegistry sampleContext none).outcome = .panicked ∧
        (CreateService failingRegistry sampleContext none).outcome ≠ .returned (some "boom")) ∧
      ((UpdateService failingRegistry sampleContext none).outcome = .panicked ∧
        (UpdateService failingRegistry sampleContext none).outcome ≠ .returned (some "boom")) ∧
      ((UpdateEndpoints failingRegistry sampleContext none).outcome = .panicked ∧
        (UpdateEndpoints failingRegistry sampleContext none).outcome ≠
          .returned (some "boom")) := by
  refine ⟨rfl, ⟨rfl, ?_⟩, ⟨rfl, ?_⟩, ⟨rfl, ?_⟩⟩ <;>
    simp [CreateService, UpdateService, UpdateEndpoints]

/-- C2, amended: when the `Err` field holds an error `E`, each of the ten methods, called
with any context, id, selectors and resource version and with a non-nil service or endpoints
pointer, returns exactly `E` as its error result.  `CreateService` and `UpdateService` called
with a nil service pointer, and `UpdateEndpoints` called with a nil endpoints pointer, panic
instead of returning.  No call, whatever its arguments (nil pointers included), changes the
`Err` field. -/
theorem injected_error_returned (r : ServiceRegistry) (E : GoError) (hE : r.Err = some E)
    (ctx : Context) (id rv : String) (label field : Selector) (X : Service) (e : Endpoints)
    (svc : Option Service) (ep : Option Endpoints) :
    ((ListServices r ctx).outcome = .returned (some r.List, some E) ∧
      (GetService r ctx id).outcome = .returned (r.Service, some E) ∧
      (CreateService r ctx (some X)).outcome = .returned (some E) ∧
      (UpdateService r ctx (some X)).outcome = .returned (some E) ∧
      (DeleteService r ctx id).outcome = .returned (some E) ∧
      (WatchServices r ctx label field rv).outcome = .returned (none, some E) ∧
      (ListEndpoints r ctx).outcome = .returned (some r.EndpointsList, some E) ∧
      (GetEndpoints r ctx id).outcome = .returned (some r.Endpoints, some E) ∧
      (UpdateEndpoints r ctx (some e)).outcome = .returned (some E) ∧
      (WatchEndpoints r ctx label field rv).outcome = .returned (none, some E)) ∧
    ((CreateService r ctx none).outcome = .panicked ∧
      (UpdateService r ctx none).outcome = .panicked ∧
      (UpdateEndpoints r ctx none).outcome = .panicked) ∧
    ((ListServices r ctx).state.Err = some E ∧
      (GetService r ctx id).state.Err = some E ∧
      (CreateService r ctx svc).state.Err = some E ∧
      (UpdateService r ctx svc).state.Err = some E ∧
      (DeleteService r ctx id).state.Err = some E ∧
      (WatchServices r ctx label field rv).state.Err = some E ∧
      (ListEndpoints r ctx).state.Err = some E ∧
      (GetEndpoints r ctx id).state.Err = some E ∧
      (UpdateEndpoints r ctx ep).state.Err = some E ∧
      (WatchEndpoints r ctx label field rv).state.Err = some E) := by
  refine ⟨?_, ⟨rfl, rfl, rfl⟩, ?_⟩
  · simp [ListServices, GetService, CreateService, UpdateService, DeleteService, WatchServices,
      ListEndpoints, GetEndpoints, UpdateEndpoints, WatchEndpoints, hE]
  · cases svc <;> cases ep <;>
      simp [ListServices, GetService, CreateService, UpdateService, DeleteService, WatchServices,
        ListEndpoints, GetEndpoints, UpdateEndpoints, WatchEndpoints, hE]

/-- Witness of the amended C2 on the fresh registry with the error `boom` injected. -/
theorem injected_error_returned_witness :
    (CreateService failingRegistry sampleContext (some sampleService)).outcome =
        .returned (some "boom") ∧
      (WatchEndpoints failingRegistry sampleContext everything everything "7").outcome =
        .returned (none, some "boom") ∧
      (UpdateEndpoints failingRegistry sampleContext none).state.Err = some "boom" :=
  have h := injected_error_returned failingRegistry "boom" rfl sampleContext "foo" "7"
    everything everything sampleService sampleEndpoints none none
  ⟨h.1.2.2.1, h.1.2.2.2.2.2.2.2.2.2, h.2.2.2.2.2.2.2.2.2.2.1⟩

/-- C3: with no injected error, after `CreateService(ctx, X)` the list that `ListServices`
returns has the earlier items followed by `X`: one item more, every earlier item at its
old position, `X` last. -/
theorem create_appends_to_list (r : ServiceRegistry) (hE : r.Err = none)
    (ctx ctx2 : Context) (X : Service) :
    (ListServices r ctx2).outcome = .returned (some r.List, none) ∧
    (CreateService r ctx (some X)).outcome = .returned none ∧
    ∃ l : ServiceList,
      (ListServices (CreateService r ctx (some X)).state ctx2).outcome = .returned (some l, none) ∧
      l.Items = r.List.Items ++ [X] ∧
      l.Items.length = r.List.Items.length + 1 ∧
      (∀ i, i < r.List.Items.length → l.Items[i]? = r.List.Items[i]?) ∧
      l.Items.getLast? = some X := by
  refine ⟨by simp [ListServices, hE], by simp [CreateService, hE],
    ⟨{ r.List with Items := r.List.Items ++ [X] }, ?_, rfl, ?_, ?_, ?_⟩⟩
  · simp [ListServices, CreateService, hE]
  · simp
  · intro i hi
    simp [List.getElem?_append_left hi]
  · simp

/-- Witness of C3: two creations on a fresh registry. -/
theorem create_appends_to_list_witness :
    ∃ l : ServiceList,
      (ListServices (CreateService (CreateService NewServiceRegistry sampleContext
        (some sampleService)).state sampleContext (some otherService)).state
          sampleContext).outcome = .returned (some l, none) ∧
      l.Items = [sampleService] ++ [otherService] :=
  have h := create_appends_to_list
    (CreateService NewServiceRegistry sampleContext (some sampleService)).state rfl
    sampleContext sampleContext otherService
  h.2.2.imp fun _ hl => ⟨hl.1, hl.2.1⟩

/-- C4: with no injected error, `DeleteService(ctx, id)` leaves `id` in `DeletedID`,
`GetService(ctx, id)` leaves `id` in `GottenID`, and `UpdateService(ctx, X)` leaves `X.ID`
in `UpdatedID`; each call returns a nil error. -/
theorem ids_recorded (r : ServiceRegistry) (hE : r.Err = none) (ctx : Context) (id : String)
    (X : Service) :
    ((DeleteService r ctx id).state.DeletedID = id ∧
      (DeleteService r ctx id).outcome = .returned none) ∧
    ((GetService r ctx id).state.GottenID = id ∧
      (GetService r ctx id).outcome = .returned (r.Service, none)) ∧
    ((UpdateService r ctx (some X)).state.UpdatedID = X.ID ∧
      (UpdateService r ctx (some X)).outcome = .returned none) := by
  simp [DeleteService, GetService, UpdateService, hE]

/-- Witness of C4 on a fresh registry. -/
theorem ids_recorded_witness :
    (DeleteService NewServiceRegistry sampleContext "foo").state.DeletedID = "foo" ∧
      (GetService NewServiceRegistry sampleContext "foo").state.GottenID = "foo" ∧
      (UpdateService NewServiceRegistry sampleContext (some otherService)).state.UpdatedID =
        "bar" :=
  have h := ids_recorded NewServiceRegistry rfl sampleContext "foo" otherService
  ⟨h.1.1, h.2.1.1, h.2.2.1⟩

/-- C7, as stated, fails: with an injected error `ListServices` returns a non-nil list and a
non-nil error (both), and with no injected error `WatchServices` returns a nil stream and a
nil error (neither), as does `GetService` on a fresh registry. -/
theorem either_or_fails :
    (ListServices failingRegistry sampleContext).outcome =
        .returned (some failingRegistry.List, some "boom") ∧
      exactlyOne (some failingRegistry.List) (some "boom") = false ∧
      (WatchServices NewServiceRegistry sampleContext everything everything "").outcome =
        .returned (none, none) ∧
      exactlyOne (none : Option WatchInterface) none = false ∧
      (GetService NewServiceRegistry sampleContext "foo").outcome = .returned (none, none) ∧
      exactlyOne (none : Option Service) none = false := by
  refine ⟨rfl, rfl, rfl, rfl, rfl, rfl⟩

/-- C7, amended: every value-returning call returns the `Err` field as its error, whatever
the value.  `ListServices`, `ListEndpoints` and `GetEndpoints` always return a non-nil
value, so exactly one of value and error is non-nil if and only if no error is injected.
`WatchServices` and `WatchEndpoints` always return a nil value, so exactly one is non-nil
if and only if an error is injected.  `GetService` returns the held `Service` pointer, so
exactly one is non-nil if and only if exactly one of `Service` and `Err` is non-nil. -/
theorem value_and_error_returned (r : ServiceRegistry) (ctx : Context) (id rv : String)
    (label field : Selector) :
    ((ListServices r ctx).outcome = .returned (some r.List, r.Err) ∧
      (exactlyOne (some r.List) r.Err = true ↔ r.Err = none)) ∧
    ((ListEndpoints r ctx).outcome = .returned (some r.EndpointsList, r.Err) ∧
      (exactlyOne (some r.EndpointsList) r.Err = true ↔ r.Err = none)) ∧
    ((GetEndpoints r ctx id).outcome = .returned (some r.Endpoints, r.Err) ∧
      (exactlyOne (some r.Endpoints) r.Err = true ↔ r.Err = none)) ∧
    ((WatchServices r ctx label field rv).outcome = .returned (none, r.Err) ∧
      (exactlyOne (none : Option WatchInterface) r.Err = true ↔ r.Err ≠ none)) ∧
    ((WatchEndpoints r ctx label field rv).outcome = .returned (none, r.Err) ∧
      (exactlyOne (none : Option WatchInterface) r.Err = true ↔ r.Err ≠ none)) ∧
    ((GetService r ctx id).outcome = .returned (r.Service, r.Err) ∧
      (exactlyOne r.Service r.Err = true ↔
        (r.Service ≠ none ∧ r.Err = none) ∨ (r.Service = none ∧ r.Err ≠ none))) := by
  refine ⟨⟨rfl, ?_⟩, ⟨rfl, ?_⟩, ⟨rfl, ?_⟩, ⟨rfl, ?_⟩, ⟨rfl, ?_⟩, ⟨rfl, ?_⟩⟩
  · cases r.Err <;> simp [exactlyOne]
  · cases r.Err <;> simp [exactlyOne]
  · cases r.Err <;> simp [exactlyOne]
  · cases r.Err <;> simp [exactlyOne]
  · cases r.Err <;> simp [exactlyOne]
  · cases r.Service <;> cases r.Err <;> simp [exactlyOne]

/-- C8, as stated, fails: on a fresh registry `GetService` after `UpdateService(ctx, X)`
returns the nil service, not `X`. -/
theorem update_not_held :
    (UpdateService NewServiceRegistry sampleContext (some sampleService)).outcome =
        .returned none ∧
      (GetService (UpdateService NewServiceRegistry sampleContext (some sampleService)).state
        sampleContext "foo").outcome = .returned (none, none) ∧
      (none : Option Service) ≠ some sampleService := by
  refine ⟨rfl, rfl, by simp⟩

/-- C8, amended: with no injected error, after `CreateService(ctx, X)` a following
`GetService(ctx, id)` returns `X`; after `UpdateService(ctx, X)` a following
`GetService(ctx, id)` returns the service that was held before the update. -/
theorem created_service_held (r : ServiceRegistry) (hE : r.Err = none) (ctx ctx2 : Context)
    (id : String) (X : Service) :
    (GetService (CreateService r ctx (some X)).state ctx2 id).outcome =
        .returned (some X, none) ∧
      (GetService (UpdateService r ctx (some X)).state ctx2 id).outcome =
        .returned (r.Service, none) := by
  simp [GetService, CreateService, UpdateService, hE]

/-- Witness of the amended C8: create one service, update with another, get. -/
theorem created_service_held_witness :
    (GetService (CreateService NewServiceRegistry sampleContext (some sampleService)).state
        sampleContext "foo").outcome = .returned (some sampleService, none) ∧
      (GetService (UpdateService
        (CreateService NewServiceRegistry sampleContext (some sampleService)).state
          sampleContext (some otherService)).state sampleContext "bar").outcome =
        .returned (some sampleService, none) :=
  ⟨(created_service_held NewServiceRegistry rfl sampleContext sampleContext "foo"
      sampleService).1,
    (created_service_held
      (CreateService NewServiceRegistry sampleContext (some sampleService)).state rfl
      sampleContext sampleContext "bar" otherService).2⟩

/-- C9, as stated, fails: the fresh registry holds no service at all, no error is injected,
and `UpdateService(ctx, X)` returns a nil error. -/
theorem update_unknown_id_succeeds :
    NewServiceRegistry.Err = none ∧
      (∀ s ∈ NewServiceRegistry.List.Items, s.ID ≠ sampleService.ID) ∧
      NewServiceRegistry.Service = none ∧
      (UpdateService NewServiceRegistry sampleContext (some sampleService)).outcome =
        .returned none ∧
      ¬ ∃ E : GoError,
        (UpdateService NewServiceRegistry sampleContext (some sampleService)).outcome =
          .returned (some E) := by
  refine ⟨rfl, ?_, rfl, rfl, ?_⟩
  · intro s hs
    simp [NewServiceRegistry] at hs
  · rintro ⟨E, hE⟩
    simp [UpdateService, NewServiceRegistry] at hE

/-- C9, amended: `UpdateService(ctx, X)` never looks `X.ID` up; it returns the `Err` field.
With no injected error it returns a nil error for every service `X`, whether or not `X.ID`
is the ID of a service in the registry, and records `X.ID` in `UpdatedID`. -/
theorem update_returns_injected_error (r : ServiceRegistry) (ctx : Context) (X : Service) :
    (UpdateService r ctx (some X)).outcome = .returned r.Err ∧
      (r.Err = none → (UpdateService r ctx (some X)).outcome = .returned none) ∧
      (UpdateService r ctx (some X)).state.UpdatedID = X.ID := by
  refine ⟨rfl, ?_, rfl⟩
  intro hE
  simp [UpdateService, hE]

/-- Witness of the amended C9 on the fresh registry. -/
theorem update_returns_injected_error_witness :
    (UpdateService NewServiceRegistry sampleContext (some sampleService)).outcome =
      .returned none :=
  (update_returns_injected_error NewServiceRegistry sampleContext sampleService).2.1 rfl

/-- C10: every operation writes only its own fields, whatever the state and the arguments
(nil pointers included).  The two list and the two watch calls leave the state as it was;
`GetService` and `GetEndpoints` write `GottenID` only; `DeleteService` writes `DeletedID`
only; `UpdateService` writes `UpdatedID` only; `UpdateEndpoints` writes `Endpoints` only;
`CreateService` writes `Service` and `List.Items` only. -/
theorem registry_frame (r : ServiceRegistry) (ctx : Context) (id rv : String) (label field : Selector)
    (svc : Option Service) (ep : Option Endpoints) :
    (ListServices r ctx).state = r ∧
    (ListEndpoints r ctx).state = r ∧
    (WatchServices r ctx label field rv).state = r ∧
    (WatchEndpoints r ctx label field rv).state = r ∧
    (GetService r ctx id).state = { r with GottenID := id } ∧
    (GetEndpoints r ctx id).state = { r with GottenID := id } ∧
    (DeleteService r ctx id).state = { r with DeletedID := id } ∧
    (∃ u, (UpdateService r ctx svc).state = { r with UpdatedID := u }) ∧
    (∃ v, (UpdateEndpoints r ctx ep).state = { r with Endpoints := v }) ∧
    (∃ held items, (CreateService r ctx svc).state =
      { r with Service := held, List := { r.List with Items := items } }) := by
  refine ⟨rfl, rfl, rfl, rfl, rfl, rfl, rfl, ?_, ?_, ?_⟩
  · cases svc with
    | none => exact ⟨r.UpdatedID, rfl⟩
    | some s => exact ⟨s.ID, rfl⟩
  · cases ep with
    | none => exact ⟨r.Endpoints, rfl⟩
    | some v => exact ⟨v, rfl⟩
  · cases svc with
    | none => exact ⟨none, r.List.Items, rfl⟩
    | some s => exact ⟨some s, r.List.Items ++ [s], rfl⟩

end Registrytest

/-! # Theorems about the bootstrap -/

namespace Apiserver

open Registrytest (GoError)

theorem pure_eq {α : Type} (a : α) : (pure a : Run α) = { trace := [], result := .ok a } := rfl

theorem mk_ok_bind {α β : Type} (tr : List Event) (a : α) (k : α → Run β) :
    ((⟨tr, .ok a⟩ : Run α) >>= k) = ⟨tr ++ (k a).trace, (k a).result⟩ := rfl

theorem mk_error_bind {α β : Type} (tr : List Event) (t : Termination) (k : α → Run β) :
    ((⟨tr, .error t⟩ : Run α) >>= k) = ⟨tr, .error t⟩ := rfl

theorem ite_bind {α β : Type} (c : Prop) [Decidable c] (x y : Run α) (k : α → Run β) :
    ((if c then x else y) >>= k) = if c then x >>= k else y >>= k := by
  split <;> rfl

theorem verifyMinionFlags_result (f : Flags) : (verifyMinionFlags f).result = .ok () := by
  simp only [verifyMinionFlags, emit, pure_eq, mk_ok_bind]
  split_ifs <;> rfl

theorem verifyMinionFlags_trace (f : Flags) :
    ∀ e ∈ (verifyMinionFlags f).trace, ∃ m, e = .logInfo m := by
  simp only [verifyMinionFlags, emit, pure_eq, mk_ok_bind]
  split_ifs <;> simp

theorem initCloudProvider_result (w : World) (n c : String) :
    (∃ cloud, (initCloudProvider w n c).result = .ok cloud) ∨
      ∃ cause, (initCloudProvider w n c).result = .error (.fatal cause) ∧ cause ≠ .storageSource := by
  simp only [initCloudProvider, emit, pure_eq, mk_ok_bind, mk_error_bind, fatalf, stop, ite_bind]
  split_ifs
  · simp
  · split
    · simp
    · simp only [mk_ok_bind]
      split <;> simp
  · simp only [mk_ok_bind]
    split <;> simp

theorem initCloudProvider_trace (w : World) (n c : String) :
    ∀ e ∈ (initCloudProvider w n c).trace, e.isCORS = false := by
  simp only [initCloudProvider, emit, pure_eq, mk_ok_bind, mk_error_bind, fatalf, stop, ite_bind]
  split_ifs
  · simp [Event.isCORS]
  · split
    · simp [Event.isCORS]
    · simp only [mk_ok_bind]
      split <;> simp [Event.isCORS]
  · simp only [mk_ok_bind]
    split <;> simp [Event.isCORS]

theorem newEtcd_result (f : Flags) (w : World) (c : String) (l : List String) :
    ∃ r, (newEtcd f w c l).result = .ok r := by
  simp only [newEtcd, emit, pure_eq, mk_ok_bind, mk_error_bind, fatalf, stop, ite_bind]
  split_ifs
  · simp only [mk_ok_bind]
    split <;> simp
  · simp

theorem newEtcd_trace (f : Flags) (w : World) (c : String) (l : List String) :
    ∀ e ∈ (newEtcd f w c l).trace, e.isCORS = false := by
  simp only [newEtcd, emit, pure_eq, mk_ok_bind, mk_error_bind, fatalf, stop, ite_bind]
  split_ifs
  · simp only [mk_ok_bind]
    split <;> simp [Event.isCORS]
  · simp [Event.isCORS]

theorem result_ok_bind {α β : Type} (tr : List Event) (a : α) (k : α → Run β) :
    ((⟨tr, .ok a⟩ : Run α) >>= k).result = (k a).result := rfl

theorem trace_ok_bind {α β : Type} (tr : List Event) (a : α) (k : α → Run β) :
    ((⟨tr, .ok a⟩ : Run α) >>= k).trace = tr ++ (k a).trace := rfl

theorem result_error_bind {α β : Type} (tr : List Event) (t : Termination) (k : α → Run β) :
    ((⟨tr, .error t⟩ : Run α) >>= k).result = .error t := rfl

theorem trace_error_bind {α β : Type} (tr : List Event) (t : Termination) (k : α → Run β) :
    ((⟨tr, .error t⟩ : Run α) >>= k).trace = tr := rfl

theorem run_bind_assoc {α β γ : Type} (x : Run α) (g : α → Run β) (k : β → Run γ) :
    ((x >>= g) >>= k) = (x >>= fun a => g a >>= k) := by
  rcases x with ⟨tr, t | a⟩
  · rfl
  · rcases hy : g a with ⟨tr2, t | b⟩
    · simp [bind, Run.bind, hy]
    · simp [bind, Run.bind, hy]

theorem main_run (f : Flags) (w : World) :
    ∃ tr1, (∀ e ∈ tr1, ∃ m, e = Event.logInfo m) ∧
      ((w.versionRequested = true ∧ (main f w).trace = [] ∧ (main f w).result = .error .exited) ∨
       (w.versionRequested = false ∧
          ((f.etcdConfigFile ≠ "" ∧ f.etcdServerList.length ≠ 0) ∨
            (f.etcdConfigFile = "" ∧ f.etcdServerList.length = 0)) ∧
          (main f w).trace = tr1 ++ [.checkStorageSource] ∧
          (main f w).result = .error (.fatal .storageSource)) ∨
       (w.versionRequested = false ∧
          ¬ ((f.etcdConfigFile ≠ "" ∧ f.etcdServerList.length ≠ 0) ∨
            (f.etcdConfigFile = "" ∧ f.etcdServerList.length = 0)) ∧
          ∃ rest, (main f w).trace = tr1 ++ .checkStorageSource :: rest ∧
            (f.corsAllowedOriginList.length = 0 → ∀ e ∈ rest, e.isCORS = false) ∧
            ((∃ cloud, (initCloudProvider w f.cloudProvider f.cloudConfigFile).result =
                .ok cloud) →
              (∃ client, w.clientNew (clientConfig f w) = .ok client) →
              (∃ helper, (newEtcd f w f.etcdConfigFile f.etcdServerList).result =
                .ok (.ok helper)) →
              f.corsAllowedOriginList.length > 0 →
              (∃ rs, CompileRegexps w.regexpCompile f.corsAllowedOriginList = .ok rs) →
              Event.wrapCORS ∈ rest) ∧
            ((∃ cause, (main f w).result = .error (.fatal cause) ∧ cause ≠ .storageSource ∧
                ((∃ t, (initCloudProvider w f.cloudProvider f.cloudConfigFile).result = .error t) ∨
                 (∃ err, w.clientNew (clientConfig f w) = .error err) ∨
                 (∃ err, (newEtcd f w f.etcdConfigFile f.etcdServerList).result =
                    .ok (.error err)) ∨
                 (f.corsAllowedOriginList.length > 0 ∧ ∃ err,
                    CompileRegexps w.regexpCompile f.corsAllowedOriginList = .error err) ∨
                 (f.tokenAuthFile.utf8ByteSize ≠ 0 ∧ ∃ err,
                    w.tokenfileNew f.tokenAuthFile = .error err))) ∨
             (∃ cloud client helper inner1 inner2,
                (initCloudProvider w f.cloudProvider f.cloudConfigFile).result = .ok cloud ∧
                w.clientNew (clientConfig f w) = .ok client ∧
                (newEtcd f w f.etcdConfigFile f.etcdServerList).result = .ok (.ok helper) ∧
                (main f w).result =
                  .error (.listening (httpServer f w (.recoverPanics inner2))) ∧
                ((f.corsAllowedOriginList.length > 0 ∧ ∃ rs,
                    CompileRegexps w.regexpCompile f.corsAllowedOriginList = .ok rs ∧
                    inner1 = .cors (.mux (masterConfig f client cloud helper)
                      (installedRoutes f)) rs "true") ∨
                  (f.corsAllowedOriginList.length = 0 ∧
                    inner1 = .mux (masterConfig f client cloud helper) (installedRoutes f))) ∧
                ((f.tokenAuthFile.utf8ByteSize ≠ 0 ∧ ∃ a,
                    w.tokenfileNew f.tokenAuthFile = .ok a ∧
                    inner2 = .requestAuthenticator a inner1) ∨
                  (f.tokenAuthFile.utf8ByteSize = 0 ∧ inner2 = inner1)))))) := by
  have h1 := verifyMinionFlags_result f
  have h1t := verifyMinionFlags_trace f
  have h2 := initCloudProvider_result w f.cloudProvider f.cloudConfigFile
  have h2t := initCloudProvider_trace w f.cloudProvider f.cloudConfigFile
  have h3 := newEtcd_result f w f.etcdConfigFile f.etcdServerList
  have h3t := newEtcd_trace f w f.etcdConfigFile f.etcdServerList
  generalize hR : (main f w).result = R
  generalize hT : (main f w).trace = T
  simp only [main] at hR hT
  generalize verifyMinionFlags f = x1 at h1 h1t hR hT
  generalize initCloudProvider w f.cloudProvider f.cloudConfigFile = x2 at h2 h2t hR hT ⊢
  generalize newEtcd f w f.etcdConfigFile f.etcdServerList = x3 at h3 h3t hR hT ⊢
  generalize w.clientNew (clientConfig f w) = x4 at hR hT ⊢
  generalize CompileRegexps w.regexpCompile f.corsAllowedOriginList = x5 at hR hT ⊢
  generalize w.tokenfileNew f.tokenAuthFile = x6 at hR hT ⊢
  rcases x1 with ⟨tr1, r1⟩
  rcases x2 with ⟨tr2, r2⟩
  rcases x3 with ⟨tr3, r3⟩
  simp only at h1 h2 h3 h1t h2t h3t
  subst h1
  obtain ⟨r, rfl⟩ := h3
  refine ⟨tr1, h1t, ?_⟩
  by_cases hv : w.versionRequested = true
  · left
    simp only [hv, emit, pure_eq, result_ok_bind, trace_ok_bind, result_error_bind, trace_error_bind,
      fatalf, stop, if_true] at hR hT
    exact ⟨hv, hT.symm, hR.symm⟩
  right
  have hv2 : w.versionRequested = false := by simpa using hv
  simp only [hv2, emit, pure_eq, result_ok_bind, trace_ok_bind, result_error_bind, trace_error_bind,
      fatalf, stop, Bool.false_eq_true, if_false] at hR hT
  by_cases hc : (f.etcdConfigFile ≠ "" ∧ f.etcdServerList.length ≠ 0) ∨
            (f.etcdConfigFile = "" ∧ f.etcdServerList.length = 0)
  · left
    simp only [hc, result_ok_bind, trace_ok_bind, result_error_bind, trace_error_bind, if_true] at hR hT
    exact ⟨hv2, hc, by rw [← hT]; simp, hR.symm⟩
  right
  refine ⟨hv2, hc, ?_⟩
  simp only [hc, result_ok_bind, trace_ok_bind, result_error_bind, trace_error_bind, if_false] at hR hT
  rcases h2 with ⟨cloud, rfl⟩ | ⟨cause, rfl, hcause⟩
  swap
  · simp only [run_bind_assoc, result_ok_bind, trace_ok_bind, result_error_bind, trace_error_bind] at hR hT
    subst hR hT
    refine ⟨_, by simp; rfl, ?_, (fun a _ _ _ _ => by simp at a), Or.inl ⟨cause, rfl, hcause, Or.inl ⟨_, rfl⟩⟩⟩
    intro _ e he
    simp only [List.mem_append, List.mem_cons, List.mem_singleton, List.not_mem_nil, or_false,
      false_or] at he
    casesm* _ ∨ _
    all_goals first | exact h2t _ ‹_› | exact h3t _ ‹_› | (subst e; rfl)
  simp only [run_bind_assoc, result_ok_bind, trace_ok_bind, result_error_bind, trace_error_bind] at hR hT
  rcases x4 with err | client
  · simp only [run_bind_assoc, result_ok_bind, trace_ok_bind, result_error_bind, trace_error_bind] at hR hT
    subst hR hT
    refine ⟨_, by simp; rfl, ?_, (fun _ b _ _ _ => by simp at b), Or.inl ⟨_, rfl, by simp, Or.inr (Or.inl ⟨_, rfl⟩)⟩⟩
    intro _ e he
    simp only [List.mem_append, List.mem_cons, List.mem_singleton, List.not_mem_nil, or_false,
      false_or] at he
    casesm* _ ∨ _
    all_goals first | exact h2t _ ‹_› | exact h3t _ ‹_› | (subst e; rfl)
  simp only [run_bind_assoc, result_ok_bind, trace_ok_bind, result_error_bind, trace_error_bind] at hR hT
  rcases r with err | helper
  · simp only [run_bind_assoc, result_ok_bind, trace_ok_bind, result_error_bind, trace_error_bind] at hR hT
    subst hR hT
    refine ⟨_, by simp; rfl, ?_, (fun _ _ c _ _ => by simp at c), Or.inl ⟨_, rfl, by simp, Or.inr (Or.inr (Or.inl ⟨_, rfl⟩))⟩⟩
    intro _ e he
    simp only [List.mem_append, List.mem_cons, List.mem_singleton, List.not_mem_nil, or_false,
      false_or] at he
    casesm* _ ∨ _
    all_goals first | exact h2t _ ‹_› | exact h3t _ ‹_› | (subst e; rfl)
  simp only [run_bind_assoc, result_ok_bind, trace_ok_bind, result_error_bind, trace_error_bind] at hR hT
  by_cases hcors : f.corsAllowedOriginList.length > 0
  · simp only [if_pos hcors, run_bind_assoc, result_ok_bind, trace_ok_bind] at hR hT
    have hcors2 : ¬ f.corsAllowedOriginList.length = 0 := by omega
    rcases x5 with err5 | rs
    · simp only [run_bind_assoc, result_ok_bind, trace_ok_bind, result_error_bind, trace_error_bind] at hR hT
      subst hR hT
      exact ⟨_, by simp; rfl, fun h => absurd h hcors2, (fun _ _ _ _ e => by simp at e),
        Or.inl ⟨_, rfl, by simp, Or.inr (Or.inr (Or.inr (Or.inl ⟨hcors, _, rfl⟩)))⟩⟩
    simp only [run_bind_assoc, result_ok_bind, trace_ok_bind, result_error_bind, trace_error_bind] at hR hT
    by_cases htok : f.tokenAuthFile.utf8ByteSize ≠ 0
    · simp only [if_pos htok, run_bind_assoc, result_ok_bind, trace_ok_bind] at hR hT
      rcases x6 with err6 | auth
      · simp only [run_bind_assoc, result_ok_bind, trace_ok_bind, result_error_bind, trace_error_bind] at hR hT
        subst hR hT
        exact ⟨_, by simp; rfl, fun h => absurd h hcors2, (fun _ _ _ _ _ => by simp),
          Or.inl ⟨_, rfl, by simp, Or.inr (Or.inr (Or.inr (Or.inr ⟨htok, _, rfl⟩)))⟩⟩
      · simp only [run_bind_assoc, result_ok_bind, trace_ok_bind, result_error_bind, trace_error_bind] at hR hT
        subst hR hT
        exact ⟨_, by simp; rfl, fun h => absurd h hcors2, (fun _ _ _ _ _ => by simp),
          Or.inr ⟨cloud, client, helper, _, _, rfl, rfl, rfl, rfl,
            Or.inl ⟨hcors, rs, rfl, rfl⟩, Or.inl ⟨htok, auth, rfl, rfl⟩⟩⟩
    · simp only [if_neg htok, run_bind_assoc, result_ok_bind, trace_ok_bind] at hR hT
      subst hR hT
      exact ⟨_, by simp; rfl, fun h => absurd h hcors2, (fun _ _ _ _ _ => by simp),
          Or.inr ⟨cloud, client, helper, _, _, rfl, rfl, rfl, rfl,
            Or.inl ⟨hcors, rs, rfl, rfl⟩, Or.inr ⟨by simpa using htok, rfl⟩⟩⟩
  · simp only [if_neg hcors, run_bind_assoc, result_ok_bind, trace_ok_bind] at hR hT
    have hcors2 : f.corsAllowedOriginList.length = 0 := by omega
    by_cases htok : f.tokenAuthFile.utf8ByteSize ≠ 0
    · simp only [if_pos htok, run_bind_assoc, result_ok_bind, trace_ok_bind] at hR hT
      rcases x6 with err6 | auth
      · simp only [run_bind_assoc, result_ok_bind, trace_ok_bind, result_error_bind, trace_error_bind] at hR hT
        subst hR hT
        refine ⟨_, by simp; rfl, ?_, (fun _ _ _ d _ => absurd d hcors),
          Or.inl ⟨_, rfl, by simp, Or.inr (Or.inr (Or.inr (Or.inr ⟨htok, _, rfl⟩)))⟩⟩
        intro _ e he
        simp only [List.mem_append, List.mem_cons, List.mem_singleton, List.not_mem_nil, or_false,
          false_or] at he
        casesm* _ ∨ _
        all_goals first | exact h2t _ ‹_› | exact h3t _ ‹_› | (subst e; rfl)
      · simp only [run_bind_assoc, result_ok_bind, trace_ok_bind, result_error_bind, trace_error_bind] at hR hT
        subst hR hT
        refine ⟨_, by simp; rfl, ?_, (fun _ _ _ d _ => absurd d hcors),
          Or.inr ⟨cloud, client, helper, _, _, rfl, rfl, rfl, rfl,
            Or.inr ⟨hcors2, rfl⟩, Or.inl ⟨htok, auth, rfl, rfl⟩⟩⟩
        intro _ e he
        simp only [List.mem_append, List.mem_cons, List.mem_singleton, List.not_mem_nil, or_false,
          false_or] at he
        casesm* _ ∨ _
        all_goals first | exact h2t _ ‹_› | exact h3t _ ‹_› | (subst e; rfl)
    · simp only [if_neg htok, run_bind_assoc, result_ok_bind, trace_ok_bind] at hR hT
      subst hR hT
      refine ⟨_, by simp; rfl, ?_, (fun _ _ _ d _ => absurd d hcors),
          Or.inr ⟨cloud, client, helper, _, _, rfl, rfl, rfl, rfl,
            Or.inr ⟨hcors2, rfl⟩, Or.inr ⟨by simpa using htok, rfl⟩⟩⟩
      intro _ e he
      simp only [List.mem_append, List.mem_cons, List.mem_singleton, List.not_mem_nil, or_false,
        false_or] at he
      casesm* _ ∨ _
      all_goals first | exact h2t _ ‹_› | exact h3t _ ‹_› | (subst e; rfl)

theorem utf8ByteSize_eq_zero (s : String) : s.utf8ByteSize = 0 ↔ s = "" := by
  rcases s with ⟨l⟩
  cases l with
  | nil => simp [String.utf8ByteSize, String.utf8ByteSize.go]
  | cons c cs =>
    simp only [String.utf8ByteSize, String.utf8ByteSize.go]
    have := Char.utf8Size_pos c
    constructor
    · intro h; omega
    · intro h
      exact absurd (congrArg String.data h) (by simp)

theorem CompileRegexps_error_iff (compile : String → Except GoError Regexp) (l : List String) :
    (∃ err, CompileRegexps compile l = .error err) ↔ ∃ p ∈ l, ∃ err, compile p = .error err := by
  induction l with
  | nil => simp [CompileRegexps]
  | cons p ps ih =>
    simp only [CompileRegexps, List.mem_cons, exists_eq_or_imp]
    rcases hp : compile p with err | r
    · simp
    · rcases hps : CompileRegexps compile ps with err | rs
      · rw [hps] at ih
        simp only [reduceCtorEq, exists_false, false_or]
        exact ⟨fun _ => ih.1 ⟨err, rfl⟩, fun _ => ⟨err, rfl⟩⟩
      · rw [hps] at ih
        simp only [reduceCtorEq, exists_false, false_or]
        simpa using ih

theorem CompileRegexps_ok_iff (compile : String → Except GoError Regexp) (l : List String) :
    (∃ rs, CompileRegexps compile l = .ok rs) ↔ ∀ p ∈ l, ∃ r, compile p = .ok r := by
  constructor
  · rintro ⟨rs, hrs⟩ p hp
    rcases hc : compile p with err | r
    · have := (CompileRegexps_error_iff compile l).2 ⟨p, hp, err, hc⟩
      rw [hrs] at this
      simp at this
    · exact ⟨r, rfl⟩
  · intro h
    rcases hc : CompileRegexps compile l with err | rs
    · obtain ⟨p, hp, err2, hp2⟩ := (CompileRegexps_error_iff compile l).1 ⟨err, hc⟩
      obtain ⟨r, hr⟩ := h p hp
      rw [hp2] at hr
      simp at hr
    · exact ⟨rs, rfl⟩

theorem main_trace_shape (f : Flags) (w : World) (hv : w.versionRequested = false) :
    ∃ tr1 rest, (∀ e ∈ tr1, ∃ m, e = Event.logInfo m) ∧
      (main f w).trace = tr1 ++ .checkStorageSource :: rest ∧
      ((main f w).result = .error (.fatal .storageSource) → rest = []) := by
  obtain ⟨tr1, h1t, hcase⟩ := main_run f w
  rcases hcase with ⟨hv2, -⟩ | ⟨-, -, hT, -⟩ | ⟨-, -, rest, hT, -, -, hres⟩
  · rw [hv] at hv2
    exact absurd hv2 (by simp)
  · exact ⟨tr1, [], h1t, hT, fun _ => rfl⟩
  · refine ⟨tr1, rest, h1t, hT, fun h => ?_⟩
    rcases hres with ⟨cause, hR, hne, -⟩ | ⟨_, _, _, _, _, -, -, -, hR, -⟩
    · rw [hR] at h
      simp only [Except.error.injEq, Termination.fatal.injEq] at h
      exact absurd h hne
    · rw [hR] at h
      simp at h

theorem main_storage_iff (f : Flags) (w : World) (hv : w.versionRequested = false) :
    (main f w).result = .error (.fatal .storageSource) ↔
      ((f.etcdConfigFile ≠ "" ∧ f.etcdServerList ≠ []) ∨
        (f.etcdConfigFile = "" ∧ f.etcdServerList = [])) := by
  have hlen : f.etcdServerList.length = 0 ↔ f.etcdServerList = [] := List.length_eq_zero
  obtain ⟨tr1, -, hcase⟩ := main_run f w
  rcases hcase with ⟨hv2, -⟩ | ⟨-, hc, -, hR⟩ | ⟨-, hc, rest, -, -, -, hres⟩
  · rw [hv] at hv2
    exact absurd hv2 (by simp)
  · simp only [ne_eq, hlen] at hc
    exact ⟨fun _ => hc, fun _ => hR⟩
  · simp only [ne_eq, hlen] at hc
    refine ⟨fun h => ?_, fun h => absurd h hc⟩
    rcases hres with ⟨cause, hR, hne, -⟩ | ⟨_, _, _, _, _, -, -, -, hR, -⟩
    · rw [hR] at h
      simp only [Except.error.injEq, Termination.fatal.injEq] at h
      exact absurd h hne
    · rw [hR] at h
      simp at h

/-- C1: in every run that gets past the version switch, the storage-source check ends the
process with its fatal error if and only if both `-etcd_config` and `-etcd_servers` are set
or neither is; it lets the run continue exactly when one of the two is set.  The check is
performed in every such run, every step that constructs a cloud provider, storage, a
handler or the listener comes after it, and a run the check ends has constructed
nothing. -/
theorem storage_source_check (f : Flags) (w : World) (hv : w.versionRequested = false) :
    ((main f w).result = .error (.fatal .storageSource) ↔
      ((f.etcdConfigFile ≠ "" ∧ f.etcdServerList ≠ []) ∨
        (f.etcdConfigFile = "" ∧ f.etcdServerList = []))) ∧
    ((main f w).result ≠ .error (.fatal .storageSource) ↔
      ((f.etcdConfigFile ≠ "" ∧ f.etcdServerList = []) ∨
        (f.etcdConfigFile = "" ∧ f.etcdServerList ≠ []))) ∧
    Event.checkStorageSource ∈ (main f w).trace ∧
    (∀ pre e post, (main f w).trace = pre ++ e :: post → e.isConstruction = true →
      Event.checkStorageSource ∈ pre) ∧
    ((main f w).result = .error (.fatal .storageSource) →
      ∀ e ∈ (main f w).trace, e.isConstruction = false) := by
  have hiff := main_storage_iff f w hv
  obtain ⟨tr1, rest, h1t, hT, hrest⟩ := main_trace_shape f w hv
  refine ⟨hiff, ?_, ?_, ?_, ?_⟩
  · rw [Ne, hiff]
    by_cases h1 : f.etcdConfigFile = "" <;> by_cases h2 : f.etcdServerList = [] <;> simp [h1, h2]
  · rw [hT]
    simp
  · intro pre e post hsplit hcon
    rw [hT] at hsplit
    rcases List.append_eq_append_iff.1 hsplit with ⟨a, hpre, ha⟩ | ⟨c, htr, hc⟩
    · cases a with
      | nil =>
        simp only [List.nil_append, List.cons.injEq] at ha
        rw [← ha.1] at hcon
        simp [Event.isConstruction] at hcon
      | cons x xs =>
        simp only [List.cons_append, List.cons.injEq] at ha
        rw [hpre, ← ha.1]
        simp
    · cases c with
      | nil =>
        simp only [List.nil_append, List.cons.injEq] at hc
        rw [hc.1] at hcon
        simp [Event.isConstruction] at hcon
      | cons x xs =>
        simp only [List.cons_append, List.cons.injEq] at hc
        obtain ⟨m, hm⟩ := h1t e (by rw [htr, hc.1]; simp)
        rw [hm] at hcon
        simp [Event.isConstruction] at hcon
  · intro h e he
    rw [hT, hrest h] at he
    simp only [List.mem_append, List.mem_singleton] at he
    rcases he with he | he
    · obtain ⟨m, hm⟩ := h1t e he
      rw [hm]
      rfl
    · rw [he]
      rfl

/-- Witness of C1: with both storage sources set the run ends at the check, having
constructed nothing. -/
theorem storage_source_check_witness :
    (main bothSourcesFlags sampleWorld).result = .error (.fatal .storageSource) ∧
      ∀ e ∈ (main bothSourcesFlags sampleWorld).trace, e.isConstruction = false :=
  have h := storage_source_check bothSourcesFlags sampleWorld rfl
  have hR := h.1.2 (Or.inl ⟨by decide, by decide⟩)
  ⟨hR, h.2.2.2.2 hR⟩

theorem exactly_one_source (f : Flags)
    (hc : ¬ ((f.etcdConfigFile ≠ "" ∧ f.etcdServerList.length ≠ 0) ∨
      (f.etcdConfigFile = "" ∧ f.etcdServerList.length = 0))) :
    (f.etcdConfigFile ≠ "" ∧ f.etcdServerList = []) ∨
      (f.etcdConfigFile = "" ∧ f.etcdServerList ≠ []) := by
  have hlen : f.etcdServerList.length = 0 ↔ f.etcdServerList = [] := List.length_eq_zero
  simp only [ne_eq, hlen] at hc
  by_cases h1 : f.etcdConfigFile = "" <;> by_cases h2 : f.etcdServerList = [] <;>
    simp [h1, h2] at hc ⊢

theorem main_listening (f : Flags) (w : World) (s : Server)
    (h : (main f w).result = .error (.listening s)) :
    w.versionRequested = false ∧
    ((f.etcdConfigFile ≠ "" ∧ f.etcdServerList = []) ∨
      (f.etcdConfigFile = "" ∧ f.etcdServerList ≠ [])) ∧
    ∃ cloud client helper inner1 inner2,
      (initCloudProvider w f.cloudProvider f.cloudConfigFile).result = .ok cloud ∧
      w.clientNew (clientConfig f w) = .ok client ∧
      (newEtcd f w f.etcdConfigFile f.etcdServerList).result = .ok (.ok helper) ∧
      s = httpServer f w (.recoverPanics inner2) ∧
      ((f.corsAllowedOriginList ≠ [] ∧ ∃ rs,
          CompileRegexps w.regexpCompile f.corsAllowedOriginList = .ok rs ∧
          inner1 = .cors (.mux (masterConfig f client cloud helper) (installedRoutes f))
            rs "true") ∨
        (f.corsAllowedOriginList = [] ∧
          inner1 = .mux (masterConfig f client cloud helper) (installedRoutes f))) ∧
      ((f.tokenAuthFile ≠ "" ∧ ∃ a, w.tokenfileNew f.tokenAuthFile = .ok a ∧
          inner2 = .requestAuthenticator a inner1) ∨
        (f.tokenAuthFile = "" ∧ inner2 = inner1)) := by
  obtain ⟨tr1, -, hcase⟩ := main_run f w
  rcases hcase with ⟨-, -, hR⟩ | ⟨-, -, -, hR⟩ | ⟨hv, hc, rest, -, -, -, hres⟩
  · rw [hR] at h
    simp at h
  · rw [hR] at h
    simp at h
  · rcases hres with ⟨cause, hR, -⟩ |
      ⟨cloud, client, helper, inner1, inner2, hcloud, hclient, hetcd, hR, hcors, htok⟩
    · rw [hR] at h
      simp at h
    · rw [hR] at h
      simp only [Except.error.injEq, Termination.listening.injEq] at h
      refine ⟨hv, exactly_one_source f hc, cloud, client, helper, inner1, inner2, hcloud,
        hclient, hetcd, h.symm, ?_, ?_⟩
      · rcases hcors with ⟨hlen, hrs⟩ | ⟨hlen, hin⟩
        · exact Or.inl ⟨fun hnil => by simp [hnil] at hlen, hrs⟩
        · exact Or.inr ⟨List.length_eq_zero.1 hlen, hin⟩
      · rcases htok with ⟨hsz, ha⟩ | ⟨hsz, hin⟩
        · exact Or.inl ⟨fun hemp => hsz ((utf8ByteSize_eq_zero _).2 hemp), ha⟩
        · exact Or.inr ⟨(utf8ByteSize_eq_zero _).1 hsz, hin⟩

theorem main_success (f : Flags) (w : World) (cloud : Option Cloud) (client : Client)
    (helper : EtcdHelper) (inner1 inner2 : Handler)
    (hv : w.versionRequested = false)
    (hsrc : (f.etcdConfigFile ≠ "" ∧ f.etcdServerList = []) ∨
      (f.etcdConfigFile = "" ∧ f.etcdServerList ≠ []))
    (hcloud : (initCloudProvider w f.cloudProvider f.cloudConfigFile).result = .ok cloud)
    (hclient : w.clientNew (clientConfig f w) = .ok client)
    (hetcd : (newEtcd f w f.etcdConfigFile f.etcdServerList).result = .ok (.ok helper))
    (hcors : (f.corsAllowedOriginList ≠ [] ∧ ∃ rs,
          CompileRegexps w.regexpCompile f.corsAllowedOriginList = .ok rs ∧
          inner1 = .cors (.mux (masterConfig f client cloud helper) (installedRoutes f))
            rs "true") ∨
        (f.corsAllowedOriginList = [] ∧
          inner1 = .mux (masterConfig f client cloud helper) (installedRoutes f)))
    (htok : (f.tokenAuthFile ≠ "" ∧ ∃ a, w.tokenfileNew f.tokenAuthFile = .ok a ∧
          inner2 = .requestAuthenticator a inner1) ∨
        (f.tokenAuthFile = "" ∧ inner2 = inner1)) :
    (main f w).result = .error (.listening (httpServer f w (.recoverPanics inner2))) ∧
      (f.corsAllowedOriginList ≠ [] → Event.wrapCORS ∈ (main f w).trace) := by
  have hlen : f.corsAllowedOriginList.length = 0 ↔ f.corsAllowedOriginList = [] :=
    List.length_eq_zero
  have hlen2 : f.etcdServerList.length = 0 ↔ f.etcdServerList = [] := List.length_eq_zero
  obtain ⟨tr1, -, hcase⟩ := main_run f w
  rcases hcase with ⟨hv2, -⟩ | ⟨-, hc, -⟩ | ⟨-, -, rest, hT, -, hwrap, hres⟩
  · rw [hv] at hv2
    exact absurd hv2 (by simp)
  · exfalso
    simp only [ne_eq, hlen2] at hc
    rcases hc with ⟨h1, h2⟩ | ⟨h1, h2⟩ <;> rcases hsrc with ⟨h3, h4⟩ | ⟨h3, h4⟩ <;>
      first | exact h1 h3 | exact h3 h1 | exact h2 h4 | exact h4 h2
  · constructor
    · rcases hres with ⟨cause, -, -, hwhy⟩ |
        ⟨cloud2, client2, helper2, i1, i2, hcloud2, hclient2, hetcd2, hR, hcors2, htok2⟩
      · exfalso
        rcases hwhy with ⟨t, ht⟩ | ⟨err, he⟩ | ⟨err, he⟩ | ⟨hl, err, he⟩ | ⟨hs, err, he⟩
        · rw [hcloud] at ht
          simp at ht
        · rw [hclient] at he
          simp at he
        · rw [hetcd] at he
          simp at he
        · rcases hcors with ⟨-, rs, hrs, -⟩ | ⟨hnil, -⟩
          · rw [hrs] at he
            simp at he
          · simp [hnil] at hl
        · rcases htok with ⟨-, a, ha, -⟩ | ⟨hemp, -⟩
          · rw [ha] at he
            simp at he
          · exact hs ((utf8ByteSize_eq_zero _).2 hemp)
      · rw [hcloud] at hcloud2
        rw [hclient] at hclient2
        rw [hetcd] at hetcd2
        simp only [Except.ok.injEq] at hcloud2 hclient2 hetcd2
        subst hcloud2 hclient2 hetcd2
        have hi1 : i1 = inner1 := by
          rcases hcors with ⟨hne, rs, hrs, rfl⟩ | ⟨hnil, rfl⟩ <;>
            rcases hcors2 with ⟨hl, rs2, hrs2, rfl⟩ | ⟨hl, rfl⟩
          · rw [hrs] at hrs2
            simp only [Except.ok.injEq] at hrs2
            rw [hrs2]
          · exact absurd (hlen.1 hl) hne
          · simp [hnil] at hl
          · rfl
        subst hi1
        have hi2 : i2 = inner2 := by
          rcases htok with ⟨hne, a, ha, rfl⟩ | ⟨hemp, rfl⟩ <;>
            rcases htok2 with ⟨hs, a2, ha2, rfl⟩ | ⟨hs, rfl⟩
          · rw [ha] at ha2
            simp only [Except.ok.injEq] at ha2
            rw [ha2]
          · exact absurd ((utf8ByteSize_eq_zero _).1 hs) hne
          · exact absurd ((utf8ByteSize_eq_zero _).2 hemp) hs
          · rfl
        rw [hR, hi2]
    · intro hne
      rw [hT]
      rcases hcors with ⟨-, rs, hrs, -⟩ | ⟨hnil, -⟩
      · have := hwrap ⟨_, hcloud⟩ ⟨_, hclient⟩ ⟨_, hetcd⟩
          (by rcases hl : f.corsAllowedOriginList with _ | ⟨p, ps⟩
              · exact absurd hl hne
              · simp)
          ⟨rs, hrs⟩
        simp [this]
      · exact absurd hnil hne

/-- C5: a configuration passes validation when the version switch is off, exactly one
storage source is set and every collaborator `main` consults succeeds; `main` then reaches
the listener.  Whenever `main` reaches the listener, the server it starts is the
`http.Server` literal around this handler, from the outside in: the panic-recovery wrapper;
then the request authenticator built from the loaded token file, present exactly when
`-token_auth_file` is non-empty; then the CORS wrapper around the compiled patterns, present
exactly when `-cors_allowed_origins` is non-empty; then the mux that carries the master
configuration and the four installed routes.  With neither configured the chain is recovery
around the mux; with both configured the authenticator wraps the CORS wrapper. -/
theorem handler_chain (f : Flags) (w : World) :
    (∀ cloud client helper,
      w.versionRequested = false →
      ((f.etcdConfigFile ≠ "" ∧ f.etcdServerList = []) ∨
        (f.etcdConfigFile = "" ∧ f.etcdServerList ≠ [])) →
      (initCloudProvider w f.cloudProvider f.cloudConfigFile).result = .ok cloud →
      w.clientNew (clientConfig f w) = .ok client →
      (newEtcd f w f.etcdConfigFile f.etcdServerList).result = .ok (.ok helper) →
      (f.corsAllowedOriginList = [] ∨
        ∃ rs, CompileRegexps w.regexpCompile f.corsAllowedOriginList = .ok rs) →
      (f.tokenAuthFile = "" ∨ ∃ a, w.tokenfileNew f.tokenAuthFile = .ok a) →
      ∃ s, (main f w).result = .error (.listening s)) ∧
    (∀ s, (main f w).result = .error (.listening s) →
      (∃ cloud client helper inner1 inner2,
        (initCloudProvider w f.cloudProvider f.cloudConfigFile).result = .ok cloud ∧
        w.clientNew (clientConfig f w) = .ok client ∧
        (newEtcd f w f.etcdConfigFile f.etcdServerList).result = .ok (.ok helper) ∧
        s = httpServer f w (.recoverPanics inner2) ∧
        (if f.tokenAuthFile ≠ "" then
          ∃ a, w.tokenfileNew f.tokenAuthFile = .ok a ∧ inner2 = .requestAuthenticator a inner1
          else inner2 = inner1) ∧
        (if f.corsAllowedOriginList ≠ [] then
          ∃ rs, CompileRegexps w.regexpCompile f.corsAllowedOriginList = .ok rs ∧
            inner1 = .cors (.mux (masterConfig f client cloud helper) (installedRoutes f))
              rs "true"
          else inner1 = .mux (masterConfig f client cloud helper) (installedRoutes f))) ∧
      s.Handler.layers =
        [.recovery] ++ (if f.tokenAuthFile ≠ "" then [.authentication] else []) ++
          (if f.corsAllowedOriginList ≠ [] then [.crossOrigin] else []) ++ [.routing] ∧
      (f.tokenAuthFile = "" → f.corsAllowedOriginList = [] →
        s.Handler.layers = [.recovery, .routing]) ∧
      (f.tokenAuthFile ≠ "" → f.corsAllowedOriginList ≠ [] →
        s.Handler.layers = [.recovery, .authentication, .crossOrigin, .routing])) := by
  constructor
  · intro cloud client helper hv hsrc hcloud hclient hetcd hcors htok
    have hc : ∃ inner1 : Handler, (f.corsAllowedOriginList ≠ [] ∧ ∃ rs,
          CompileRegexps w.regexpCompile f.corsAllowedOriginList = .ok rs ∧
          inner1 = .cors (.mux (masterConfig f client cloud helper) (installedRoutes f))
            rs "true") ∨
        (f.corsAllowedOriginList = [] ∧
          inner1 = .mux (masterConfig f client cloud helper) (installedRoutes f)) := by
      by_cases hnil : f.corsAllowedOriginList = []
      · exact ⟨_, Or.inr ⟨hnil, rfl⟩⟩
      · rcases hcors with h | ⟨rs, hrs⟩
        · exact absurd h hnil
        · exact ⟨_, Or.inl ⟨hnil, rs, hrs, rfl⟩⟩
    obtain ⟨inner1, hc⟩ := hc
    have ht : ∃ inner2 : Handler, (f.tokenAuthFile ≠ "" ∧ ∃ a, w.tokenfileNew f.tokenAuthFile = .ok a ∧
          inner2 = .requestAuthenticator a inner1) ∨
        (f.tokenAuthFile = "" ∧ inner2 = inner1) := by
      by_cases hemp : f.tokenAuthFile = ""
      · exact ⟨_, Or.inr ⟨hemp, rfl⟩⟩
      · rcases htok with h | ⟨a, ha⟩
        · exact absurd h hemp
        · exact ⟨_, Or.inl ⟨hemp, a, ha, rfl⟩⟩
    obtain ⟨inner2, ht⟩ := ht
    exact ⟨_, (main_success f w cloud client helper inner1 inner2 hv hsrc hcloud hclient hetcd
      hc ht).1⟩
  · intro s h
    obtain ⟨-, -, cloud, client, helper, inner1, inner2, hcloud, hclient, hetcd, hs, hcors, htok⟩ :=
      main_listening f w s h
    have hlayers : s.Handler.layers =
        [.recovery] ++ (if f.tokenAuthFile ≠ "" then [.authentication] else []) ++
          (if f.corsAllowedOriginList ≠ [] then [.crossOrigin] else []) ++ [.routing] := by
      rcases hcors with ⟨hc, rs, -, rfl⟩ | ⟨hc, rfl⟩ <;>
        rcases htok with ⟨ht, a, -, rfl⟩ | ⟨ht, rfl⟩ <;>
        simp [hs, httpServer, hc, ht, Handler.layers]
    refine ⟨⟨cloud, client, helper, inner1, inner2, hcloud, hclient, hetcd, hs, ?_, ?_⟩,
      hlayers, ?_, ?_⟩
    · rcases htok with ⟨ht, a, ha⟩ | ⟨ht, hin⟩
      · rw [if_pos ht]
        exact ⟨a, ha⟩
      · rw [if_neg (not_not.2 ht)]
        exact hin
    · rcases hcors with ⟨hc, rs, hin⟩ | ⟨hc, hin⟩
      · rw [if_pos hc]
        exact ⟨rs, hin⟩
      · rw [if_neg (not_not.2 hc)]
        exact hin
    · intro ht hc
      simp [hlayers, ht, hc]
    · intro ht hc
      simp [hlayers, ht, hc]

/-- Witness of C5: with a token file and one allowed origin, and every collaborator
succeeding, `main` reaches the listener and serves recovery around the authenticator around
the CORS wrapper around the mux. -/
theorem handler_chain_witness :
    ∃ s, (main securedFlags sampleWorld).result = .error (.listening s) ∧
      s.Handler.layers = [.recovery, .authentication, .crossOrigin, .routing] :=
  ((handler_chain securedFlags sampleWorld).1 none
      { config := clientConfig securedFlags sampleWorld }
      { client := some (.fromServers ["http://127.0.0.1:4001"]), version := "" }
      rfl (Or.inr ⟨rfl, by decide⟩) rfl rfl rfl
      (Or.inr ⟨[{ source := "example.com" }], rfl⟩)
      (Or.inr ⟨{ path := "/etc/tokens.csv" }, rfl⟩)).imp
    fun s hs =>
      ⟨hs, ((handler_chain securedFlags sampleWorld).2 s hs).2.2.2 (by decide) (by decide)⟩

/-- C6: for every list of CORS origin patterns.  If the list is non-empty and some pattern
does not compile, a run that gets past the version switch ends fatally.  If the list is
non-empty and every pattern compiles, a run that gets as far as the CORS stage performs the
wrapping step, the handler it hands on is the CORS wrapper around the mux `main` built, and
every run that reaches the listener has the CORS wrapper in its chain.  If the list is
empty, no pattern is compiled, no CORS wrapper is added, and the handler handed on to the
authentication stage is the mux `main` built, unchanged. -/
theorem cors_stage (f : Flags) (w : World) :
    (w.versionRequested = false → f.corsAllowedOriginList ≠ [] →
      (∃ p ∈ f.corsAllowedOriginList, ∃ err, w.regexpCompile p = .error err) →
      ∃ cause, (main f w).result = .error (.fatal cause)) ∧
    (f.corsAllowedOriginList ≠ [] →
      (∀ p ∈ f.corsAllowedOriginList, ∃ r, w.regexpCompile p = .ok r) →
      (∀ s, (main f w).result = .error (.listening s) →
        Layer.crossOrigin ∈ s.Handler.layers ∧
        ∃ cloud client helper rs inner2,
          (initCloudProvider w f.cloudProvider f.cloudConfigFile).result = .ok cloud ∧
          w.clientNew (clientConfig f w) = .ok client ∧
          (newEtcd f w f.etcdConfigFile f.etcdServerList).result = .ok (.ok helper) ∧
          s = httpServer f w (.recoverPanics inner2) ∧
          CompileRegexps w.regexpCompile f.corsAllowedOriginList = .ok rs ∧
          (inner2 = .cors (.mux (masterConfig f client cloud helper) (installedRoutes f))
              rs "true" ∨
            ∃ a, inner2 = .requestAuthenticator a
              (.cors (.mux (masterConfig f client cloud helper) (installedRoutes f))
                rs "true"))) ∧
      (∀ cloud client helper,
        w.versionRequested = false →
        ((f.etcdConfigFile ≠ "" ∧ f.etcdServerList = []) ∨
          (f.etcdConfigFile = "" ∧ f.etcdServerList ≠ [])) →
        (initCloudProvider w f.cloudProvider f.cloudConfigFile).result = .ok cloud →
        w.clientNew (clientConfig f w) = .ok client →
        (newEtcd f w f.etcdConfigFile f.etcdServerList).result = .ok (.ok helper) →
        ∃ rs, CompileRegexps w.regexpCompile f.corsAllowedOriginList = .ok rs ∧
          (f.tokenAuthFile = "" →
            Event.wrapCORS ∈ (main f w).trace ∧
            (main f w).result = .error (.listening (httpServer f w (.recoverPanics
              (.cors (.mux (masterConfig f client cloud helper) (installedRoutes f))
                rs "true"))))) ∧
          (∀ a, f.tokenAuthFile ≠ "" → w.tokenfileNew f.tokenAuthFile = .ok a →
            Event.wrapCORS ∈ (main f w).trace ∧
            (main f w).result = .error (.listening (httpServer f w (.recoverPanics
              (.requestAuthenticator a
                (.cors (.mux (masterConfig f client cloud helper) (installedRoutes f))
                  rs "true")))))))) ∧
    (f.corsAllowedOriginList = [] →
      (∀ e ∈ (main f w).trace, e.isCORS = false) ∧
      (∀ s, (main f w).result = .error (.listening s) →
        Layer.crossOrigin ∉ s.Handler.layers ∧
        ∃ cloud client helper,
          (initCloudProvider w f.cloudProvider f.cloudConfigFile).result = .ok cloud ∧
          w.clientNew (clientConfig f w) = .ok client ∧
          (newEtcd f w f.etcdConfigFile f.etcdServerList).result = .ok (.ok helper) ∧
          (s = httpServer f w (.recoverPanics
              (.mux (masterConfig f client cloud helper) (installedRoutes f))) ∨
            ∃ a, s = httpServer f w (.recoverPanics (.requestAuthenticator a
              (.mux (masterConfig f client cloud helper) (installedRoutes f)))))) ∧
      (∀ cloud client helper,
        w.versionRequested = false →
        ((f.etcdConfigFile ≠ "" ∧ f.etcdServerList = []) ∨
          (f.etcdConfigFile = "" ∧ f.etcdServerList ≠ [])) →
        (initCloudProvider w f.cloudProvider f.cloudConfigFile).result = .ok cloud →
        w.clientNew (clientConfig f w) = .ok client →
        (newEtcd f w f.etcdConfigFile f.etcdServerList).result = .ok (.ok helper) →
        (f.tokenAuthFile = "" →
          (main f w).result = .error (.listening (httpServer f w (.recoverPanics
            (.mux (masterConfig f client cloud helper) (installedRoutes f)))))) ∧
        (∀ a, f.tokenAuthFile ≠ "" → w.tokenfileNew f.tokenAuthFile = .ok a →
          (main f w).result = .error (.listening (httpServer f w (.recoverPanics
            (.requestAuthenticator a
              (.mux (masterConfig f client cloud helper) (installedRoutes f))))))))) := by
  refine ⟨?_, ?_, ?_⟩
  · intro hv hne hbad
    obtain ⟨err, herr⟩ := (CompileRegexps_error_iff _ _).2 hbad
    obtain ⟨tr1, -, hcase⟩ := main_run f w
    rcases hcase with ⟨hv2, -⟩ | ⟨-, -, -, hR⟩ | ⟨-, -, rest, -, -, -, hres⟩
    · rw [hv] at hv2
      exact absurd hv2 (by simp)
    · exact ⟨_, hR⟩
    · rcases hres with ⟨cause, hR, -⟩ | ⟨_, _, _, _, _, -, -, -, -, hcors, -⟩
      · exact ⟨_, hR⟩
      · rcases hcors with ⟨-, rs, hrs, -⟩ | ⟨hlen, -⟩
        · rw [herr] at hrs
          simp at hrs
        · exact absurd (List.length_eq_zero.1 hlen) hne
  · intro hne hall
    obtain ⟨rs, hrs⟩ := (CompileRegexps_ok_iff _ _).2 hall
    constructor
    · intro s h
      obtain ⟨-, -, cloud, client, helper, inner1, inner2, hcloud, hclient, hetcd, hs, hcors,
        htok⟩ := main_listening f w s h
      rcases hcors with ⟨-, rs2, hrs2, rfl⟩ | ⟨hc, -⟩
      · rcases htok with ⟨-, a, -, rfl⟩ | ⟨-, rfl⟩
        · exact ⟨by simp [hs, httpServer, Handler.layers], cloud, client, helper, rs2, _,
            hcloud, hclient, hetcd, hs, hrs2, Or.inr ⟨a, rfl⟩⟩
        · exact ⟨by simp [hs, httpServer, Handler.layers], cloud, client, helper, rs2, _,
            hcloud, hclient, hetcd, hs, hrs2, Or.inl rfl⟩
      · exact absurd hc hne
    · intro cloud client helper hv hsrc hcloud hclient hetcd
      refine ⟨rs, hrs, ?_, ?_⟩
      · intro hemp
        have h := main_success f w cloud client helper _ _ hv hsrc hcloud hclient hetcd
          (Or.inl ⟨hne, rs, hrs, rfl⟩) (Or.inr ⟨hemp, rfl⟩)
        exact ⟨h.2 hne, h.1⟩
      · intro a hnemp ha
        have h := main_success f w cloud client helper _ _ hv hsrc hcloud hclient hetcd
          (Or.inl ⟨hne, rs, hrs, rfl⟩) (Or.inl ⟨hnemp, a, ha, rfl⟩)
        exact ⟨h.2 hne, h.1⟩
  · intro hnil
    refine ⟨?_, ?_, ?_⟩
    · obtain ⟨tr1, h1t, hcase⟩ := main_run f w
      rcases hcase with ⟨-, hT, -⟩ | ⟨-, -, hT, -⟩ | ⟨-, -, rest, hT, hrest, -⟩
      · rw [hT]
        simp
      · rw [hT]
        intro e he
        simp only [List.mem_append, List.mem_singleton] at he
        rcases he with he | he
        · obtain ⟨m, hm⟩ := h1t e he
          rw [hm]
          rfl
        · rw [he]
          rfl
      · rw [hT]
        intro e he
        simp only [List.mem_append, List.mem_cons] at he
        rcases he with he | he | he
        · obtain ⟨m, hm⟩ := h1t e he
          rw [hm]
          rfl
        · rw [he]
          rfl
        · exact hrest (by simp [hnil]) e he
    · intro s h
      obtain ⟨-, -, cloud, client, helper, inner1, inner2, hcloud, hclient, hetcd, hs, hcors,
        htok⟩ := main_listening f w s h
      rcases hcors with ⟨hc, -⟩ | ⟨-, rfl⟩
      · exact absurd hnil hc
      · rcases htok with ⟨-, a, -, rfl⟩ | ⟨-, rfl⟩
        · exact ⟨by simp [hs, httpServer, Handler.layers], cloud, client, helper, hcloud,
            hclient, hetcd, Or.inr ⟨a, hs⟩⟩
        · exact ⟨by simp [hs, httpServer, Handler.layers], cloud, client, helper, hcloud,
            hclient, hetcd, Or.inl hs⟩
    · intro cloud client helper hv hsrc hcloud hclient hetcd
      refine ⟨?_, ?_⟩
      · intro hemp
        exact (main_success f w cloud client helper _ _ hv hsrc hcloud hclient hetcd
          (Or.inr ⟨hnil, rfl⟩) (Or.inr ⟨hemp, rfl⟩)).1
      · intro a hnemp ha
        exact (main_success f w cloud client helper _ _ hv hsrc hcloud hclient hetcd
          (Or.inr ⟨hnil, rfl⟩) (Or.inl ⟨hnemp, a, ha, rfl⟩)).1

/-- Witness of C6: a pattern that does not compile ends the run fatally; a list that compiles
makes the run wrap the mux it built and serve the wrapper under the authenticator; with the
empty list the run serves recovery around the mux it built. -/
theorem cors_stage_witness :
    (∃ cause, (main badOriginFlags sampleWorld).result = .error (.fatal cause)) ∧
      (∃ rs, Event.wrapCORS ∈ (main securedFlags sampleWorld).trace ∧
        (main securedFlags sampleWorld).result =
          .error (.listening (httpServer securedFlags sampleWorld (.recoverPanics
            (.requestAuthenticator { path := "/etc/tokens.csv" }
              (.cors (.mux (masterConfig securedFlags
                  { config := clientConfig securedFlags sampleWorld } none
                  { client := some (.fromServers ["http://127.0.0.1:4001"]), version := "" })
                (installedRoutes securedFlags)) rs "true")))))) ∧
      (main sampleFlags sampleWorld).result =
        .error (.listening (httpServer sampleFlags sampleWorld (.recoverPanics
          (.mux (masterConfig sampleFlags
              { config := clientConfig sampleFlags sampleWorld } none
              { client := some (.fromServers ["http://127.0.0.1:4001"]), version := "" })
            (installedRoutes sampleFlags))))) :=
  ⟨(cors_stage badOriginFlags sampleWorld).1 rfl (by decide)
      ⟨"(", by decide, "missing closing )", rfl⟩,
    (((cors_stage securedFlags sampleWorld).2.1 (by decide)
      (by intro p hp; simp [securedFlags, sampleFlags] at hp; subst hp; exact ⟨_, rfl⟩)).2
      none { config := clientConfig securedFlags sampleWorld }
      { client := some (.fromServers ["http://127.0.0.1:4001"]), version := "" }
      rfl (Or.inr ⟨rfl, by decide⟩) rfl rfl rfl).imp
      fun _ h => h.2.2 { path := "/etc/tokens.csv" } (by decide) rfl,
    ((((cors_stage sampleFlags sampleWorld).2.2 rfl).2.2
      none { config := clientConfig sampleFlags sampleWorld }
      { client := some (.fromServers ["http://127.0.0.1:4001"]), version := "" }
      rfl (Or.inr ⟨rfl, by decide⟩) rfl rfl rfl).1 rfl)⟩

end Apiserver
